import Mathlib

/-!
Verification development for a forum profile scraper.

The program extracts structured profile information from a forum member
page (username, join date, total posts, reputation, bio, visitor
messages), accumulating per-field soft failures, and runs a change
poller that fires a callback when the observed post count increases.

The embedding models an HTML document as a record of the results of the
fixed structural (xmlpath) queries the program performs, the HTTP
fetcher as a function from URL to a document or a transport error, and
a Go runtime panic as the `none` case of an `Option` result.
-/

namespace Forum

/-- A single visitor message on a user page (`VisitorMessage` in the source). -/
structure VisitorMessage where
  UserName : String
  Message : String
deriving Repr, DecidableEq

/-- One child block of the visitor-message container, as seen by the two
relative queries `.//div[2]/div[1]/div/a` (author) and `.//div[2]/div[2]`
(body): each is the first-match string result, or `none` when the query
yields no node. -/
structure MessageBlock where
  userQ : Option String
  textQ : Option String
deriving Repr, DecidableEq

/-- A parsed document, modelled as the results of the structural queries the
program runs against it.  For a `path.String root` call the field holds the
first matched node's string (`none` when no node matches); `messageBlocks`
holds the nodes matched by `//*[@id="message_list"]/*` in document order
(so `Exists` on that path is `messageBlocks ≠ []`); `reputationQ` gives, per
anchor id substituted into the table query, the string values of all nodes
matched by the `contains(text(),'Reputation: ')` query in document order. -/
structure Node where
  /-- result of `//*[@id="username_box"]/h1` -/
  usernameBoxQ : Option String
  /-- result of `//*[@id="collapseobj_stats"]/div/*/ul/*[contains(.,'Join Date: ')]` -/
  joinDateQ : Option String
  /-- result of `//*[@id="collapseobj_stats"]/div/fieldset[1]/ul/li[1]` -/
  totalPostsQ : Option String
  /-- result of `//*[@id="collapseobj_aboutme"]/div/ul/li[1]/dl/dd[1]` -/
  bioQ : Option String
  /-- nodes matched by `//*[@id="message_list"]/*` -/
  messageBlocks : List MessageBlock
  /-- first result of `//td[@class="alt1"]/div[@class="alt2"]/div/em/a/@href` -/
  postLinkHrefQ : Option String
  /-- all results of the per-anchor `Reputation: ` query, keyed by anchor id -/
  reputationQ : String → List String

/-- The extraction result for one member page (`UserProfile` in the source);
errors are modelled by their messages. -/
structure UserProfile where
  UserName : String := ""
  JoinDate : String := ""
  TotalPosts : Int := 0
  Reputation : Int := 0
  BioText : String := ""
  VisitorMessages : List VisitorMessage := []
  Errors : List String := []
deriving Repr, DecidableEq

instance : Inhabited UserProfile := ⟨{}⟩

/-- The document fetcher (`fc.GetHTMLRoot`): URL to parsed document or
transport error. -/
abbrev Fetcher := String → Except String Node

/-- Go `strings.TrimPrefix s pre`: drop `pre` when it is a prefix of `s`,
otherwise return `s` unchanged. -/
def trimPrefixStr (s pre : String) : String :=
  if pre.data.isPrefixOf s.data then ⟨s.data.drop pre.data.length⟩ else s

/-- Go `strings.Trim s cutset`: drop leading and trailing characters of `s`
belonging to `cut`. -/
def trimCutset (cut : List Char) (s : String) : String :=
  ⟨((s.data.dropWhile (fun c => c ∈ cut)).reverse.dropWhile (fun c => c ∈ cut)).reverse⟩

/-- Go `strings.Replace s "," "" -1`: remove every comma. -/
def removeCommas (s : String) : String :=
  ⟨s.data.filter (fun c => c ≠ ',')⟩

def splitOnCharAux (sep : Char) : List Char → List (List Char)
  | [] => [[]]
  | c :: cs =>
    let r := splitOnCharAux sep cs
    if c = sep then [] :: r
    else
      match r with
      | [] => [[c]]
      | h :: t => (c :: h) :: t

/-- Go `strings.Split s (String.singleton sep)`: the substrings between
occurrences of the separator, in order; always non-empty (a string with no
separator yields the one-element list holding the whole string). -/
def splitOnChar (sep : Char) (s : String) : List String :=
  (splitOnCharAux sep s.data).map (fun l => ⟨l⟩)

def digitVal (c : Char) : Option Nat :=
  if '0' ≤ c ∧ c ≤ '9' then some (c.toNat - '0'.toNat) else none

def parseDigitsAux : List Char → Nat → Option Nat
  | [], acc => some acc
  | c :: cs, acc =>
    match digitVal c with
    | some d => parseDigitsAux cs (acc * 10 + d)
    | none => none

/-- Go `strconv.Atoi`: optional sign then a non-empty run of decimal digits;
anything else fails.  (Machine-word overflow is irrelevant at the values the
program handles and is not modelled.) -/
def atoi (s : String) : Option Int :=
  match s.data with
  | [] => none
  | '-' :: cs => if cs.isEmpty then none else (parseDigitsAux cs 0).map (fun n => -(n : Int))
  | '+' :: cs => if cs.isEmpty then none else (parseDigitsAux cs 0).map (fun n => (n : Int))
  | cs => (parseDigitsAux cs 0).map (fun n => (n : Int))

/-- `getUserName` (forum.go:92): first match of the username query, trimmed of
newlines and spaces; no match is an error. -/
def getUserName (root : Node) : Except String String :=
  match root.usernameBoxQ with
  | none => .error "user name xmlpath did not return a result"
  | some result => .ok (trimCutset ['\n', ' '] result)

/-- `getJoinDate` (forum.go:106): first match of the join-date query with the
label prefix stripped; no match is an error. -/
def getJoinDate (root : Node) : Except String String :=
  match root.joinDateQ with
  | none => .error "join date xmlpath did not return a result"
  | some result => .ok (trimPrefixStr result "Join Date: ")

/-- `getTotalPosts` (forum.go:121): first match of the post-count query with
label stripped and commas removed, parsed with `Atoi`. -/
def getTotalPosts (root : Node) : Except String Int :=
  match root.totalPostsQ with
  | none => .error "total posts xmlpath did not return a result"
  | some posts =>
    match atoi (removeCommas (trimPrefixStr posts "Total Posts: ")) with
    | none => .error "cannot convert posts to integer"
    | some result => .ok result

/-- `getUserBio` (forum.go:186): first match of the bio query; no match is an
error. -/
def getUserBio (root : Node) : Except String String :=
  match root.bioQ with
  | none => .error "user bio xmlpath did not return a result"
  | some result => .ok result

/-- `getFirstTenUserVisitorMessages` (forum.go:200): error when the container
query matches nothing; otherwise iterate the blocks, skipping (`continue`) any
block whose author or body query fails, keeping the rest in order. -/
def getFirstTenUserVisitorMessages (root : Node) : Except String (List VisitorMessage) :=
  if root.messageBlocks.isEmpty then
    .error "visitor messages xmlpath did not return a result"
  else
    .ok (root.messageBlocks.filterMap (fun b =>
      match b.userQ with
      | none => none
      | some user =>
        match b.textQ with
        | none => none
        | some text => some ⟨user, text⟩))

/-- `getReputation` (forum.go:141).  Two dependent fetches: the search page
for the user's posts, then the discussion page named by the first permalink.
`strings.Split(href, "#")[1]` in the source indexes the piece after the first
`#` without a bounds check: when `href` contains no `#` the Go program panics
with an index-out-of-range runtime error, modelled here as `none`.  The loop
over the per-anchor `Reputation: ` matches keeps only the last one (starting
from the empty string), then strips the label and commas and parses. -/
def getReputation (fetch : Fetcher) (forumUserID : String) : Option (Except String Int) :=
  match fetch ("http://forum.sa-mp.com/search.php?do=finduser&u=" ++ forumUserID) with
  | .error e => some (.error ("cannot get user's posts: " ++ e))
  | .ok root =>
    match root.postLinkHrefQ with
    | none => some (.error "cannot get user posts")
    | some href =>
      match fetch ("http://forum.sa-mp.com/" ++ href) with
      | .error e => some (.error ("cannot get user's post in a topic: " ++ e))
      | .ok root2 =>
        match (splitOnChar '#' href)[1]? with
        | none => none
        | some anchor =>
          let reputation := (root2.reputationQ anchor).foldl (fun _ s => s) ""
          match atoi (removeCommas (trimPrefixStr reputation "Reputation: ")) with
          | none => some (.error "cannot convert reputation to integer")
          | some result => some (.ok result)

/-- The error list a field result contributes to `Errors`: the Go
`if err != nil { result.Errors = append(result.Errors, err) }` pattern. -/
def errList : Except String α → List String
  | .error e => [e]
  | .ok _ => []

/-- Whether a field extraction failed. -/
def isErr : Except String α → Bool
  | .error _ => true
  | .ok _ => false

/-- `GetUserProfilePage` (forum.go:50).  A fetch failure or a username
failure is fatal (wrapped and returned, no profile).  Every later field
keeps its zero value on failure and appends its error, in source order:
join date, total posts, reputation, bio, visitor messages.  The reputation
step can panic (see `getReputation`), modelled as `none`. -/
def GetUserProfilePage (fetch : Fetcher) (url : String) : Option (Except String UserProfile) :=
  match fetch url with
  | .error e => some (.error ("failed to get HTML root for user page: " ++ e))
  | .ok root =>
    match getUserName root with
    | .error e => some (.error ("url did not lead to a valid user page: " ++ e))
    | .ok userName =>
      let r1 := getJoinDate root
      let r2 := getTotalPosts root
      match getReputation fetch (trimPrefixStr url "http://forum.sa-mp.com/member.php?u=") with
      | none => none
      | some r3 =>
        let r4 := getUserBio root
        let r5 := getFirstTenUserVisitorMessages root
        some (.ok
          { UserName := userName
            JoinDate := r1.toOption.getD ""
            TotalPosts := r2.toOption.getD 0
            Reputation := r3.toOption.getD 0
            BioText := r4.toOption.getD ""
            VisitorMessages := r5.toOption.getD []
            Errors := errList r1 ++ errList r2 ++ errList r3 ++ errList r4 ++ errList r5 })

/-- One tick of `NewPostAlert`'s goroutine loop (forum.go:237).  Input is the
state `lastPostCount` (initially `-1`) and the result of
`GetUserProfilePage`; output is `none` when the loop `return`s (extraction
error: the goroutine exits for good), otherwise the new state and whether
`fn` was invoked on this tick. -/
def pollStep (lastPostCount : Int) (res : Except String UserProfile) : Option (Int × Bool) :=
  match res with
  | .error _ => none
  | .ok profile =>
    if lastPostCount = -1 then some (profile.TotalPosts, false)
    else if lastPostCount < profile.TotalPosts then some (profile.TotalPosts, true)
    else some (lastPostCount, false)

/-- The per-tick trace of the poller loop over a list of extraction results:
each entry is the state after that tick and whether the callback fired on it;
the trace ends early when the loop returns. -/
def pollTrace (lastPostCount : Int) : List (Except String UserProfile) → List (Int × Bool)
  | [] => []
  | res :: rest =>
    match pollStep lastPostCount res with
    | none => []
    | some (last2, fired) => (last2, fired) :: pollTrace last2 rest

/-- Running the poller loop over a list of per-tick extraction results:
returns (number of extraction attempts made, number of callback
invocations). -/
def pollRun (lastPostCount : Int) : List (Except String UserProfile) → Nat × Nat
  | [] => (0, 0)
  | res :: rest =>
    match pollStep lastPostCount res with
    | none => (1, 0)
    | some (last2, fired) =>
      let p := pollRun last2 rest
      (p.1 + 1, p.2 + (if fired then 1 else 0))

/-- Number of callback invocations recorded in a trace. -/
def countFires (t : List (Int × Bool)) : Nat :=
  (t.filter (fun e => e.2)).length

/-- Modelled from the spec (§4.3, Armed state): on each tick with observed
count `c`, fire exactly when `c` is strictly greater than the baseline and
update the baseline to `c`; otherwise keep the baseline and do not fire. -/
def armedSpecTrace (baseline : Int) : List Int → List (Int × Bool)
  | [] => []
  | c :: cs =>
    if baseline < c then (c, true) :: armedSpecTrace c cs
    else (baseline, false) :: armedSpecTrace baseline cs

/-- Modelled from the spec (§4.3): the first tick establishes the baseline
without firing, after which the poller is `Armed`. -/
def pollerSpecTrace : List Int → List (Int × Bool)
  | [] => []
  | c :: cs => (c, false) :: armedSpecTrace c cs

/-- An all-fields-failing empty document, used as the default fetch result in
concrete test fetchers. -/
def emptyNode : Node :=
  { usernameBoxQ := none
    joinDateQ := none
    totalPostsQ := none
    bioQ := none
    messageBlocks := []
    postLinkHrefQ := none
    reputationQ := fun _ => [] }

/-- The profile inside a successful extraction result (default elsewhere). -/
def profileOf : Option (Except String UserProfile) → UserProfile
  | some (.ok p) => p
  | _ => {}

/-- Whether the extraction returned normally and successfully. -/
def isOkSome : Option (Except String UserProfile) → Bool
  | some (.ok _) => true
  | _ => false

lemma errList_length (r : Except String α) :
    (errList r).length = if isErr r then 1 else 0 := by
  cases r <;> rfl

lemma toOption_getD_of_isErr (r : Except String α) (d : α) (h : isErr r = true) :
    r.toOption.getD d = d := by
  cases r with
  | error e => rfl
  | ok v => simp [isErr] at h

lemma toOption_getD_of_ok (r : Except String α) (d v : α) (h : r = .ok v) :
    r.toOption.getD d = v := by
  subst h; rfl

instance exceptDecEq {ε α : Type} [DecidableEq ε] [DecidableEq α] :
    DecidableEq (Except ε α) := fun x y =>
  match x, y with
  | .ok a, .ok b => if h : a = b then .isTrue (by rw [h]) else .isFalse (by simp [h])
  | .error a, .error b => if h : a = b then .isTrue (by rw [h]) else .isFalse (by simp [h])
  | .ok _, .error _ => .isFalse (by simp)
  | .error _, .ok _ => .isFalse (by simp)

lemma foldl_keep_last (l : List String) (d : String) :
    l.foldl (fun _ s => s) d = l.getLastD d := by
  induction l generalizing d with
  | nil => rfl
  | cons a t ih => rw [List.foldl_cons, List.getLastD_cons]; exact ih a

/-- C1: a document on which the username query yields no result makes
`GetUserProfilePage` return the fatal "invalid user page" error, producing no
`UserProfile` at all. -/
theorem getUserProfilePage_fails_without_username (fetch : Fetcher) (url : String)
    (root : Node) (h1 : fetch url = .ok root) (h2 : root.usernameBoxQ = none) :
    GetUserProfilePage fetch url =
      some (.error
        "url did not lead to a valid user page: user name xmlpath did not return a result") := by
  simp [GetUserProfilePage, h1, getUserName, h2]

def w1Fetch : Fetcher := fun _ => .ok emptyNode

/-- Witness for C1 at a concrete document with no username node. -/
theorem getUserProfilePage_fails_without_username_witness :
    GetUserProfilePage w1Fetch "http://forum.sa-mp.com/member.php?u=3" =
      some (.error
        "url did not lead to a valid user page: user name xmlpath did not return a result") :=
  getUserProfilePage_fails_without_username w1Fetch
    "http://forum.sa-mp.com/member.php?u=3" emptyNode rfl rfl

/-- A page whose username node exists but holds only whitespace; the post
permalink is absent so the reputation lookup fails softly. -/
def blankNameNode : Node :=
  { emptyNode with
    usernameBoxQ := some "\n "
    joinDateQ := some "Join Date: March 2009"
    totalPostsQ := some "Total Posts: 5"
    bioQ := some "example bio" }

def blankNameFetch : Fetcher := fun _ => .ok blankNameNode

/-- C7 counterexample: a document whose username node exists but contains only
whitespace is extracted successfully, yet the returned profile's `UserName` is
the empty string — so a successfully returned profile can have an empty
username. -/
theorem username_can_be_empty_on_success :
    GetUserProfilePage blankNameFetch "http://forum.sa-mp.com/member.php?u=3" =
      some (.ok
        { UserName := ""
          JoinDate := "March 2009"
          TotalPosts := 5
          Reputation := 0
          BioText := "example bio"
          VisitorMessages := []
          Errors := ["cannot get user posts",
                     "visitor messages xmlpath did not return a result"] }) := by
  decide

/-- C7 amended: extraction fails wholly exactly when the username query yields
no node; whenever the query yields a string (and the reputation hop returns
normally) the extraction succeeds and `UserName` is that string trimmed of
newlines and spaces — which is empty when the node held only whitespace. -/
theorem username_trimmed_on_success (fetch : Fetcher) (url : String) (root : Node)
    (s : String) (r3 : Except String Int)
    (h1 : fetch url = .ok root) (h2 : root.usernameBoxQ = some s)
    (h3 : getReputation fetch (trimPrefixStr url "http://forum.sa-mp.com/member.php?u=")
            = some r3) :
    isOkSome (GetUserProfilePage fetch url) = true
    ∧ (profileOf (GetUserProfilePage fetch url)).UserName = trimCutset ['\n', ' '] s := by
  simp [GetUserProfilePage, h1, getUserName, h2, h3, isOkSome, profileOf]

/-- Witness for C7's amended theorem at the whitespace-username document. -/
theorem username_trimmed_on_success_witness :
    isOkSome (GetUserProfilePage blankNameFetch "http://forum.sa-mp.com/member.php?u=3") = true
    ∧ (profileOf (GetUserProfilePage blankNameFetch
        "http://forum.sa-mp.com/member.php?u=3")).UserName = trimCutset ['\n', ' '] "\n " :=
  username_trimmed_on_success blankNameFetch "http://forum.sa-mp.com/member.php?u=3"
    blankNameNode "\n " (.error "cannot get user posts") rfl rfl rfl

/-- A search result whose first permalink carries no `#` fragment. -/
def fragmentlessSearchNode : Node :=
  { emptyNode with postLinkHrefQ := some "showthread.php?p=12345" }

def fragmentlessFetch : Fetcher := fun url =>
  if url = "http://forum.sa-mp.com/search.php?do=finduser&u=3" then .ok fragmentlessSearchNode
  else .ok emptyNode

/-- C4 (code bug): when the first post permalink contains no `#` fragment, the
source indexes `strings.Split(href, "#")[1]` out of range and the Go program
panics instead of recording a soft failure for the reputation field; the panic
is the `none` result here. -/
theorem getReputation_panics_on_fragmentless_permalink :
    getReputation fragmentlessFetch "3" = none := by
  decide

/-- C8: when the per-anchor `Reputation: ` query yields more than one node,
the reputation value is computed from the last matching node, not the
first. -/
theorem reputation_last_match_wins (fetch : Fetcher) (uid href anchor : String)
    (sroot proot : Node)
    (w1 : fetch ("http://forum.sa-mp.com/search.php?do=finduser&u=" ++ uid) = .ok sroot)
    (w2 : sroot.postLinkHrefQ = some href)
    (w3 : fetch ("http://forum.sa-mp.com/" ++ href) = .ok proot)
    (w4 : (splitOnChar '#' href)[1]? = some anchor)
    (hm : 1 < (proot.reputationQ anchor).length) :
    getReputation fetch uid =
      some (match atoi (removeCommas (trimPrefixStr
              ((proot.reputationQ anchor).getLastD "") "Reputation: ")) with
        | none => .error "cannot convert reputation to integer"
        | some result => .ok result) := by
  simp only [getReputation, w1, w2, w3, w4, foldl_keep_last]
  cases atoi (removeCommas (trimPrefixStr
    ((proot.reputationQ anchor).getLastD "") "Reputation: ")) <;> rfl

/-- Discussion page carrying two `Reputation: ` matches inside anchor
`post99`; the first says 10, the last says 25. -/
def c8PostNode : Node :=
  { emptyNode with
    reputationQ := fun a => if a = "post99" then ["Reputation: 10", "Reputation: 25"] else [] }

def c8SearchNode : Node :=
  { emptyNode with postLinkHrefQ := some "showthread.php?p=99#post99" }

def c8Fetch : Fetcher := fun url =>
  if url = "http://forum.sa-mp.com/search.php?do=finduser&u=7" then .ok c8SearchNode
  else if url = "http://forum.sa-mp.com/showthread.php?p=99#post99" then .ok c8PostNode
  else .ok emptyNode

/-- Witness for C8: with matches `["Reputation: 10", "Reputation: 25"]` the
extracted reputation is 25, the last match. -/
theorem reputation_last_match_wins_witness :
    1 < (c8PostNode.reputationQ "post99").length
    ∧ getReputation c8Fetch "7" = some (.ok 25) :=
  ⟨by decide,
   (reputation_last_match_wins c8Fetch "7" "showthread.php?p=99#post99" "post99"
      c8SearchNode c8PostNode rfl rfl rfl (by decide) (by decide)).trans (by decide)⟩

/-- C9: with the label prefix stripped, thousands-separator commas are removed
before `Atoi`, so a comma-grouped count parses to the correct integer; a value
that is non-numeric after stripping makes `getTotalPosts` (and the final hop
of `getReputation`) return a soft error rather than crash. -/
theorem numeric_parse_strips_commas_soft_fail (root1 root2 : Node) (s1 s2 : String)
    (n : Int) (fetch : Fetcher) (uid href anchor : String) (sroot proot : Node)
    (h1 : root1.totalPostsQ = some s1)
    (hp : atoi (removeCommas (trimPrefixStr s1 "Total Posts: ")) = some n)
    (h2 : root2.totalPostsQ = some s2)
    (hf : atoi (removeCommas (trimPrefixStr s2 "Total Posts: ")) = none)
    (w1 : fetch ("http://forum.sa-mp.com/search.php?do=finduser&u=" ++ uid) = .ok sroot)
    (w2 : sroot.postLinkHrefQ = some href)
    (w3 : fetch ("http://forum.sa-mp.com/" ++ href) = .ok proot)
    (w4 : (splitOnChar '#' href)[1]? = some anchor)
    (hr : atoi (removeCommas (trimPrefixStr
            ((proot.reputationQ anchor).getLastD "") "Reputation: ")) = none) :
    getTotalPosts root1 = .ok n
    ∧ getTotalPosts root2 = .error "cannot convert posts to integer"
    ∧ getReputation fetch uid = some (.error "cannot convert reputation to integer") := by
  refine ⟨?_, ?_, ?_⟩
  · simp [getTotalPosts, h1, hp]
  · simp [getTotalPosts, h2, hf]
  · simp only [getReputation, w1, w2, w3, w4, foldl_keep_last, hr]

/-- Page whose post-count node reads `Total Posts: 12,345`. -/
def c9GoodNode : Node := { emptyNode with totalPostsQ := some "Total Posts: 12,345" }

/-- Page whose post-count node is non-numeric after stripping. -/
def c9BadNode : Node := { emptyNode with totalPostsQ := some "Total Posts: many" }

/-- Discussion page whose reputation text is non-numeric after stripping. -/
def c9PostNode : Node :=
  { emptyNode with reputationQ := fun a => if a = "post5" then ["Reputation: lots"] else [] }

def c9SearchNode : Node :=
  { emptyNode with postLinkHrefQ := some "showthread.php?p=5#post5" }

def c9Fetch : Fetcher := fun url =>
  if url = "http://forum.sa-mp.com/search.php?do=finduser&u=9" then .ok c9SearchNode
  else if url = "http://forum.sa-mp.com/showthread.php?p=5#post5" then .ok c9PostNode
  else .ok emptyNode

/-- Witness for C9: `"12,345"` parses to 12345; non-numeric post-count and
reputation values fail softly. -/
theorem numeric_parse_strips_commas_soft_fail_witness :
    getTotalPosts c9GoodNode = .ok 12345
    ∧ getTotalPosts c9BadNode = .error "cannot convert posts to integer"
    ∧ getReputation c9Fetch "9" = some (.error "cannot convert reputation to integer") :=
  numeric_parse_strips_commas_soft_fail c9GoodNode c9BadNode
    "Total Posts: 12,345" "Total Posts: many" 12345 c9Fetch "9"
    "showthread.php?p=5#post5" "post5" c9SearchNode c9PostNode
    rfl (by decide) rfl (by decide) rfl rfl rfl (by decide) (by decide)

/-- A visitor-message block is kept iff both its author and body queries
returned a node. -/
def wellFormedBlock (b : MessageBlock) : Bool := b.userQ.isSome && b.textQ.isSome

lemma visitor_filterMap_eq (bs : List MessageBlock) :
    bs.filterMap (fun b =>
        match b.userQ with
        | none => none
        | some user =>
          match b.textQ with
          | none => none
          | some text => some (⟨user, text⟩ : VisitorMessage))
      = (bs.filter wellFormedBlock).map
          (fun b => ⟨b.userQ.getD "", b.textQ.getD ""⟩) := by
  induction bs with
  | nil => rfl
  | cons b bs ih =>
    cases hu : b.userQ <;> cases ht : b.textQ <;>
      simp [List.filterMap_cons, List.filter_cons, wellFormedBlock, hu, ht, ih]

/-- C10: with the container present, exactly the well-formed blocks are
returned, in document order, the malformed ones silently skipped with no entry
added to `Errors`; with the container absent the extractor fails with one
recorded error and the profile-level zero value is the empty sequence. -/
theorem visitor_messages_skip_malformed (root other : Node)
    (h : root.messageBlocks ≠ []) (h2 : other.messageBlocks = []) :
    getFirstTenUserVisitorMessages root =
        .ok ((root.messageBlocks.filter wellFormedBlock).map
          (fun b => ⟨b.userQ.getD "", b.textQ.getD ""⟩))
    ∧ errList (getFirstTenUserVisitorMessages root) = []
    ∧ getFirstTenUserVisitorMessages other =
        .error "visitor messages xmlpath did not return a result"
    ∧ errList (getFirstTenUserVisitorMessages other) =
        ["visitor messages xmlpath did not return a result"] := by
  have hmain : getFirstTenUserVisitorMessages root =
      .ok ((root.messageBlocks.filter wellFormedBlock).map
        (fun b => ⟨b.userQ.getD "", b.textQ.getD ""⟩)) := by
    simp [getFirstTenUserVisitorMessages, h, visitor_filterMap_eq]
  have habs : getFirstTenUserVisitorMessages other =
      .error "visitor messages xmlpath did not return a result" := by
    simp [getFirstTenUserVisitorMessages, h2]
  exact ⟨hmain, by rw [hmain]; rfl, habs, by rw [habs]; rfl⟩

/-- Container with three well-formed blocks and one block missing its
author. -/
def c10Node : Node :=
  { emptyNode with
    messageBlocks :=
      [ { userQ := some "alice", textQ := some "hello" }
      , { userQ := none, textQ := some "orphan body" }
      , { userQ := some "bob", textQ := some "hey" }
      , { userQ := some "carol", textQ := some "yo" } ] }

/-- Witness for C10: 3 well-formed entries and 1 authorless entry yield
exactly the 3 well-formed messages, in order, and no recorded error; the
absent container yields the single recorded error. -/
theorem visitor_messages_skip_malformed_witness :
    getFirstTenUserVisitorMessages c10Node =
        .ok [⟨"alice", "hello"⟩, ⟨"bob", "hey"⟩, ⟨"carol", "yo"⟩]
    ∧ errList (getFirstTenUserVisitorMessages c10Node) = []
    ∧ getFirstTenUserVisitorMessages emptyNode =
        .error "visitor messages xmlpath did not return a result"
    ∧ errList (getFirstTenUserVisitorMessages emptyNode) =
        ["visitor messages xmlpath did not return a result"] := by
  have h := visitor_messages_skip_malformed c10Node emptyNode (by decide) rfl
  exact ⟨h.1.trans (by decide), h.2.1, h.2.2.1, h.2.2.2⟩

/-- C2: with a resolvable username (and a reputation hop that returns
normally), the extraction succeeds, `Errors` is exactly the concatenation of
the per-field error lists in the fixed order join date, total posts,
reputation, bio, visitor messages (so its length is the number of failed
fields), every failed field keeps its zero value, and every successful field
keeps its extracted value. -/
theorem errors_accumulate_in_field_order (fetch : Fetcher) (url : String) (root : Node)
    (u : String) (r3 : Except String Int)
    (h1 : fetch url = .ok root) (h2 : root.usernameBoxQ = some u)
    (h3 : getReputation fetch (trimPrefixStr url "http://forum.sa-mp.com/member.php?u=")
            = some r3) :
    isOkSome (GetUserProfilePage fetch url) = true
    ∧ (profileOf (GetUserProfilePage fetch url)).Errors =
        errList (getJoinDate root) ++ errList (getTotalPosts root) ++ errList r3
          ++ errList (getUserBio root) ++ errList (getFirstTenUserVisitorMessages root)
    ∧ (profileOf (GetUserProfilePage fetch url)).Errors.length =
        ((if isErr (getJoinDate root) then 1 else 0) + (if isErr (getTotalPosts root) then 1 else 0)
          + (if isErr r3 then 1 else 0) + (if isErr (getUserBio root) then 1 else 0)
          + (if isErr (getFirstTenUserVisitorMessages root) then 1 else 0) : Nat)
    ∧ (isErr (getJoinDate root) = true → (profileOf (GetUserProfilePage fetch url)).JoinDate = "")
    ∧ (isErr (getTotalPosts root) = true → (profileOf (GetUserProfilePage fetch url)).TotalPosts = 0)
    ∧ (isErr r3 = true → (profileOf (GetUserProfilePage fetch url)).Reputation = 0)
    ∧ (isErr (getUserBio root) = true → (profileOf (GetUserProfilePage fetch url)).BioText = "")
    ∧ (isErr (getFirstTenUserVisitorMessages root) = true →
        (profileOf (GetUserProfilePage fetch url)).VisitorMessages = [])
    ∧ (∀ v, getJoinDate root = .ok v → (profileOf (GetUserProfilePage fetch url)).JoinDate = v)
    ∧ (∀ v, getTotalPosts root = .ok v → (profileOf (GetUserProfilePage fetch url)).TotalPosts = v)
    ∧ (∀ v, r3 = .ok v → (profileOf (GetUserProfilePage fetch url)).Reputation = v)
    ∧ (∀ v, getUserBio root = .ok v → (profileOf (GetUserProfilePage fetch url)).BioText = v)
    ∧ (∀ v, getFirstTenUserVisitorMessages root = .ok v →
        (profileOf (GetUserProfilePage fetch url)).VisitorMessages = v) := by
  have hmain : GetUserProfilePage fetch url =
      some (.ok
        { UserName := trimCutset ['\n', ' '] u
          JoinDate := (getJoinDate root).toOption.getD ""
          TotalPosts := (getTotalPosts root).toOption.getD 0
          Reputation := r3.toOption.getD 0
          BioText := (getUserBio root).toOption.getD ""
          VisitorMessages := (getFirstTenUserVisitorMessages root).toOption.getD []
          Errors := errList (getJoinDate root) ++ errList (getTotalPosts root) ++ errList r3
            ++ errList (getUserBio root) ++ errList (getFirstTenUserVisitorMessages root) }) := by
    simp [GetUserProfilePage, h1, getUserName, h2, h3]
  rw [hmain]
  refine ⟨rfl, by simp [profileOf], ?_, ?_, ?_, ?_, ?_, ?_, ?_, ?_, ?_, ?_, ?_⟩
  · simp [profileOf, List.length_append, errList_length]; omega
  · intro h; simp [profileOf, toOption_getD_of_isErr _ _ h]
  · intro h; simp [profileOf, toOption_getD_of_isErr _ _ h]
  · intro h; simp [profileOf, toOption_getD_of_isErr _ _ h]
  · intro h; simp [profileOf, toOption_getD_of_isErr _ _ h]
  · intro h; simp [profileOf, toOption_getD_of_isErr _ _ h]
  · intro v h; simp [profileOf, toOption_getD_of_ok _ _ _ h]
  · intro v h; simp [profileOf, toOption_getD_of_ok _ _ _ h]
  · intro v h; simp [profileOf, toOption_getD_of_ok _ _ _ h]
  · intro v h; simp [profileOf, toOption_getD_of_ok _ _ _ h]
  · intro v h; simp [profileOf, toOption_getD_of_ok _ _ _ h]

/-- Page with username and post count but missing join date and bio; the
reputation lookup fails softly (no permalink), so three fields fail. -/
def c2Node : Node :=
  { emptyNode with
    usernameBoxQ := some "Bob"
    totalPostsQ := some "Total Posts: 3"
    messageBlocks := [{ userQ := some "dan", textQ := some "hi" }] }

def c2Fetch : Fetcher := fun _ => .ok c2Node

/-- Witness for C2 at a page where exactly the join-date, reputation and bio
extractions fail: three errors, in field order. -/
theorem errors_accumulate_in_field_order_witness :
    isOkSome (GetUserProfilePage c2Fetch "http://forum.sa-mp.com/member.php?u=3") = true
    ∧ (profileOf (GetUserProfilePage c2Fetch "http://forum.sa-mp.com/member.php?u=3")).Errors =
        ["join date xmlpath did not return a result",
         "cannot get user posts",
         "user bio xmlpath did not return a result"]
    ∧ (profileOf (GetUserProfilePage c2Fetch
        "http://forum.sa-mp.com/member.php?u=3")).Errors.length = 3 := by
  have h := errors_accumulate_in_field_order c2Fetch "http://forum.sa-mp.com/member.php?u=3"
    c2Node "Bob" (.error "cannot get user posts") rfl rfl rfl
  exact ⟨h.1, h.2.1.trans (by decide), h.2.2.1.trans (by decide)⟩

lemma pollTrace_armed (ps : List UserProfile) : ∀ b : Int, 0 ≤ b →
    (∀ p ∈ ps, 0 ≤ p.TotalPosts) →
    pollTrace b (ps.map Except.ok) = armedSpecTrace b (ps.map (fun p => p.TotalPosts)) := by
  induction ps with
  | nil => intro b _ _; rfl
  | cons p ps ih =>
    intro b hb h
    have hp : 0 ≤ p.TotalPosts := h p (by simp)
    have hrest : ∀ q ∈ ps, 0 ≤ q.TotalPosts := fun q hq => h q (by simp [hq])
    have hb' : ¬ b = -1 := by omega
    by_cases hc : b < p.TotalPosts
    · simp [pollTrace, pollStep, armedSpecTrace, hb', hc, ih p.TotalPosts hp hrest]
    · simp [pollTrace, pollStep, armedSpecTrace, hb', hc, ih b hb hrest]

/-- C3: starting from the sentinel state, the poller's tick trace over any
run of successful extractions with nonnegative post counts is exactly the
spec's state machine: no callback and baseline := observed count on the first
tick, then on each later tick exactly one callback iff the observed count
strictly exceeds the baseline (updating it), none otherwise; in particular the
counts `[10, 10, 12, 12, 15]` fire the callback exactly twice. -/
theorem poller_matches_spec_trace (ps : List UserProfile)
    (h : ∀ p ∈ ps, 0 ≤ p.TotalPosts) :
    pollTrace (-1) (ps.map Except.ok) = pollerSpecTrace (ps.map (fun p => p.TotalPosts))
    ∧ countFires (pollTrace (-1)
        (([10, 10, 12, 12, 15] : List Int).map
          (fun c => Except.ok ({ TotalPosts := c } : UserProfile)))) = 2 := by
  refine ⟨?_, by decide⟩
  cases ps with
  | nil => rfl
  | cons p ps =>
    have hp : 0 ≤ p.TotalPosts := h p (by simp)
    have hrest : ∀ q ∈ ps, 0 ≤ q.TotalPosts := fun q hq => h q (by simp [hq])
    simp [pollTrace, pollStep, pollerSpecTrace, pollTrace_armed ps p.TotalPosts hp hrest]

/-- Witness for C3 at the counts `[10, 10, 12, 12, 15]`. -/
theorem poller_matches_spec_trace_witness :
    pollTrace (-1) (([ { TotalPosts := 10 }, { TotalPosts := 10 }, { TotalPosts := 12 },
        { TotalPosts := 12 }, { TotalPosts := 15 } ] : List UserProfile).map Except.ok)
      = pollerSpecTrace ([10, 10, 12, 12, 15] : List Int)
    ∧ countFires (pollTrace (-1)
        (([10, 10, 12, 12, 15] : List Int).map
          (fun c => Except.ok ({ TotalPosts := c } : UserProfile)))) = 2 := by
  have h := poller_matches_spec_trace
    ([ { TotalPosts := 10 }, { TotalPosts := 10 }, { TotalPosts := 12 },
       { TotalPosts := 12 }, { TotalPosts := 15 } ] : List UserProfile) (by decide)
  exact ⟨h.1.trans (by decide), h.2⟩

lemma pollRun_stops_at_error (e : String) (ys xs : List (Except String UserProfile)) :
    ∀ last : Int,
      pollRun last (xs ++ Except.error e :: ys) = pollRun last (xs ++ [Except.error e]) := by
  induction xs with
  | nil => intro last; rfl
  | cons x xs ih =>
    intro last
    cases hstep : pollStep last x with
    | none => simp [pollRun, hstep]
    | some st =>
      obtain ⟨l2, f⟩ := st
      simp [pollRun, hstep, ih l2]

lemma pollRun_attempts_le (xs : List (Except String UserProfile)) :
    ∀ last : Int, (pollRun last xs).1 ≤ xs.length := by
  induction xs with
  | nil => intro last; exact Nat.le_refl 0
  | cons x xs ih =>
    intro last
    cases hstep : pollStep last x with
    | none => simp [pollRun, hstep]
    | some st =>
      obtain ⟨l2, f⟩ := st
      have := ih l2
      simp [pollRun, hstep]
      omega

/-- C5: once a tick's extraction fails, the loop returns: ticks after the
first failing one contribute no extraction attempts and no callback
invocations (the run is unchanged by whatever follows the failure), and at
most the failing tick itself is attempted beyond the prefix. -/
theorem poller_stops_after_fatal_error (last : Int)
    (xs ys : List (Except String UserProfile)) (e : String) :
    pollRun last (xs ++ Except.error e :: ys) = pollRun last (xs ++ [Except.error e])
    ∧ (pollRun last (xs ++ Except.error e :: ys)).1 ≤ xs.length + 1 := by
  refine ⟨pollRun_stops_at_error e ys xs last, ?_⟩
  rw [pollRun_stops_at_error e ys xs last]
  have h := pollRun_attempts_le (xs ++ [Except.error e]) last
  simpa using h

lemma pollTrace_chain (ps : List UserProfile) : ∀ b : Int, -1 ≤ b →
    (∀ p ∈ ps, 0 ≤ p.TotalPosts) →
    List.Chain' (fun x y => x ≤ y)
      (b :: (pollTrace b (ps.map Except.ok)).map (fun st => st.1)) := by
  induction ps with
  | nil => intro b _ _; simp [pollTrace]
  | cons p ps ih =>
    intro b hb h
    have hp : 0 ≤ p.TotalPosts := h p (by simp)
    have hrest : ∀ q ∈ ps, 0 ≤ q.TotalPosts := fun q hq => h q (by simp [hq])
    by_cases h1 : b = -1
    · have hstep : pollStep b (Except.ok p) = some (p.TotalPosts, false) := by
        simp [pollStep, h1]
      simp only [List.map_cons, pollTrace, hstep, List.chain'_cons]
      exact ⟨by omega, ih p.TotalPosts (by omega) hrest⟩
    · by_cases hc : b < p.TotalPosts
      · have hstep : pollStep b (Except.ok p) = some (p.TotalPosts, true) := by
          simp [pollStep, h1, hc]
        simp only [List.map_cons, pollTrace, hstep, List.chain'_cons]
        exact ⟨le_of_lt hc, ih p.TotalPosts (by omega) hrest⟩
      · have hstep : pollStep b (Except.ok p) = some (b, false) := by
          simp [pollStep, h1, hc]
        simp only [List.map_cons, pollTrace, hstep, List.chain'_cons]
        exact ⟨le_refl b, ih b hb hrest⟩

/-- C6: a tick whose observed count is strictly below an established baseline
fires no callback and leaves the baseline unchanged, and along any run of
successful extractions with nonnegative counts the stored baseline never
decreases. -/
theorem poller_baseline_monotone (b : Int) (p : UserProfile) (ps : List UserProfile)
    (hb : 0 ≤ b) (hp : p.TotalPosts < b)
    (hps : ∀ q ∈ ps, 0 ≤ q.TotalPosts) :
    pollStep b (.ok p) = some (b, false)
    ∧ List.Chain' (fun x y => x ≤ y)
        ((-1) :: (pollTrace (-1) (ps.map Except.ok)).map (fun st => st.1)) := by
  constructor
  · have h1 : ¬ b = -1 := by omega
    have h2 : ¬ b < p.TotalPosts := by omega
    simp [pollStep, h1, h2]
  · exact pollTrace_chain ps (-1) (by omega) hps

/-- Witness for C6: baseline 12 with an observed drop to 9 does not fire and
keeps 12, and the baselines along `[10, 10, 12, 9, 15]` never decrease. -/
theorem poller_baseline_monotone_witness :
    pollStep 12 (.ok ({ TotalPosts := 9 } : UserProfile)) = some (12, false)
    ∧ List.Chain' (fun x y => x ≤ y)
        ((-1) :: (pollTrace (-1)
          (([ { TotalPosts := 10 }, { TotalPosts := 10 }, { TotalPosts := 12 },
              { TotalPosts := 9 }, { TotalPosts := 15 } ] : List UserProfile).map
            Except.ok)).map (fun st => st.1)) :=
  poller_baseline_monotone 12 ({ TotalPosts := 9 } : UserProfile)
    ([ { TotalPosts := 10 }, { TotalPosts := 10 }, { TotalPosts := 12 },
       { TotalPosts := 9 }, { TotalPosts := 15 } ] : List UserProfile)
    (by decide) (by decide) (by decide)

end Forum
